import Mathlib

/-!
Shallow embedding of the `ally` repository (a Django application orchestrating
LLM agents over a CSV-backed product store) together with proofs of the
specified properties of its data layer and orchestration layer.

Embedded components:
* the write-through text caches (`CompetitorReportService`,
  `ProductRecommendationService`, `SummarizationService` — three verbatim
  copies of one class, modulo renaming),
* the CSV-backed `ProductService` / `Product` model and the mutation tools of
  the update sub-agent (`update_product_title`, `remove_bullet_point`),
* `AgentService` (`run_competitor_report`, `run_recommendations`,
  `run_final_agent`, `_extract_final_response`).

Modelling conventions:
* Python dictionaries become association lists (`List (String × String)`),
  insertion replaces in place, lookup finds the first (only) matching key.
* The filesystem visible to a cache is a second association list
  (key ↦ file content); file writes that can raise are given an explicit
  `Option String` parameter carrying the exception text, `none` meaning that
  the write succeeded.
* Python exceptions become `Except`-style results; because a Python object
  survives the exception that its method raises, every stateful operation
  returns the resulting state next to the normal-or-exceptional outcome.
* Python string truthiness (`if not s`) is the test `s = ""`; `str.strip`
  is modelled by `pyStrip` below (they agree on ASCII whitespace).
* A pandas CSV save-then-reload is modelled field by field: cell values
  round-trip exactly, except that empty cells are read back as missing
  (`None`), which is exactly how `save_to_csv` writes `None` fields and how
  empty strings come back, and except that `save_to_csv` itself writes `None`
  for falsy list fields (`json.dumps(x) if x else None`). Pandas numeric
  type inference on string columns is outside the model.
-/

/-- Python exceptions raised by the data layer: `ValueError` and `IOError`. -/
inductive PyError where
  | valueError (msg : String)
  | ioError (msg : String)
deriving DecidableEq, Repr

/-- Truthiness of an optional Python string: `None` and `""` are falsy. -/
def pyFalsyOptStr (v : Option String) : Bool :=
  match v with
  | none => true
  | some s => s == ""

/-- Lookup in a Python dict modelled as an association list. -/
def dictGet (d : List (String × String)) (k : String) : Option String :=
  (d.find? (fun p => p.1 == k)).map (fun p => p.2)

/-- Key-membership test of a Python dict modelled as an association list. -/
def dictContains (d : List (String × String)) (k : String) : Bool :=
  d.any (fun p => p.1 == k)

/-- Insertion into a Python dict: replaces the value in place when the key is
present, appends otherwise (Python dicts are insertion ordered). -/
def dictInsert (d : List (String × String)) (k v : String) : List (String × String) :=
  match d with
  | [] => [(k, v)]
  | p :: rest => if p.1 == k then (k, v) :: rest else p :: dictInsert rest k v

/-- Deletion from a Python dict modelled as an association list. -/
def dictErase (d : List (String × String)) (k : String) : List (String × String) :=
  d.filter (fun p => !(p.1 == k))

theorem dictGet_insert (d : List (String × String)) (k v : String) :
    dictGet (dictInsert d k v) k = some v := by
  induction d with
  | nil => simp [dictInsert, dictGet, List.find?]
  | cons p rest ih =>
    by_cases hp : p.1 == k
    · simp [dictInsert, hp, dictGet, List.find?]
    · rw [dictInsert]
      simp only [hp, Bool.false_eq_true, if_false]
      unfold dictGet
      rw [List.find?_cons_of_neg _ (by simpa using hp)]
      exact ih

theorem dictGet_erase (d : List (String × String)) (k : String) :
    dictGet (dictErase d k) k = none := by
  unfold dictGet dictErase
  have hfind : (d.filter (fun p => !(p.1 == k))).find? (fun p => p.1 == k) = none := by
    rw [List.find?_eq_none]
    intro p hp
    have := List.of_mem_filter hp
    simpa using this
  rw [hfind]
  rfl

theorem dictContains_erase (d : List (String × String)) (k : String) :
    dictContains (dictErase d k) k = false := by
  unfold dictContains dictErase
  rw [Bool.eq_false_iff]
  intro h
  obtain ⟨p, hp, hpk⟩ := List.any_eq_true.mp h
  have := List.of_mem_filter hp
  simp [hpk] at this

theorem dictGet_eq_none_of_not_contains (d : List (String × String)) (k : String)
    (h : dictContains d k = false) : dictGet d k = none := by
  unfold dictGet
  have hfind : d.find? (fun p => p.1 == k) = none := by
    rw [List.find?_eq_none]
    intro p hp
    rw [Bool.not_eq_true, Bool.eq_false_iff]
    intro hpk
    rw [Bool.eq_false_iff] at h
    exact h (List.any_eq_true.mpr ⟨p, hp, hpk⟩)
  rw [hfind]
  rfl

/-- State of `CompetitorReportService` (src/ally/services/competitor_report_service.py):
the in-memory dict `_reports_cache` plus the report files on disk, one per
product id (`reports/competitive_report_<product_id>.md`; the fixed directory
and filename scheme are elided, keys stand for the per-id file). -/
structure CompetitorReportService where
  reports_cache : List (String × String)
  disk_files : List (String × String)
deriving DecidableEq, Repr

/-- Embedding of `CompetitorReportService.save_report`: raises `ValueError` on a
falsy `product_id` or `report`, otherwise writes the memory cache first and
then the disk file; a disk failure (exception text in `diskError`) is re-raised
as `IOError` after the cache was already updated. The `report` argument is
`Option String` because the service is called with the possibly-`None` result
of `_extract_final_response`. -/
def save_report (svc : CompetitorReportService) (product_id : String)
    (report : Option String) (diskError : Option String) :
    Except PyError Unit × CompetitorReportService :=
  if product_id = "" then
    (.error (.valueError "product_id cannot be empty"), svc)
  else if pyFalsyOptStr report then
    (.error (.valueError "report cannot be empty"), svc)
  else
    let svc1 : CompetitorReportService :=
      { svc with reports_cache := dictInsert svc.reports_cache product_id (report.getD "") }
    match diskError with
    | none =>
      (.ok (), { svc1 with disk_files := dictInsert svc1.disk_files product_id (report.getD "") })
    | some e =>
      (.error (.ioError ("Failed to save report: " ++ e)), svc1)

/-- Embedding of `CompetitorReportService.get_report`: empty id returns `None`;
otherwise memory cache first, then the disk file, populating the cache on a
disk hit (file reads are modelled as succeeding). -/
def get_report (svc : CompetitorReportService) (product_id : String) :
    Option String × CompetitorReportService :=
  if product_id = "" then (none, svc)
  else
    match dictGet svc.reports_cache product_id with
    | some report => (some report, svc)
    | none =>
      match dictGet svc.disk_files product_id with
      | none => (none, svc)
      | some report =>
        (some report, { svc with reports_cache := dictInsert svc.reports_cache product_id report })

/-- Embedding of `CompetitorReportService.has_report`: memory first, then file
existence. -/
def has_report (svc : CompetitorReportService) (product_id : String) : Bool :=
  if product_id = "" then false
  else dictContains svc.reports_cache product_id || dictContains svc.disk_files product_id

/-- Embedding of `CompetitorReportService.delete_report`: empty id returns
`False`; otherwise removes the cache entry and the disk file when present and
reports whether either existed (`unlink` is modelled as succeeding). -/
def delete_report (svc : CompetitorReportService) (product_id : String) :
    Bool × CompetitorReportService :=
  if product_id = "" then (false, svc)
  else
    let deletedCache := dictContains svc.reports_cache product_id
    let cache1 := if deletedCache then dictErase svc.reports_cache product_id else svc.reports_cache
    let deletedDisk := dictContains svc.disk_files product_id
    let disk1 := if deletedDisk then dictErase svc.disk_files product_id else svc.disk_files
    (deletedCache || deletedDisk, { reports_cache := cache1, disk_files := disk1 })

/-- The class `ProductRecommendationService`
(src/ally/services/product_recommendation_service.py) is a verbatim copy of
`CompetitorReportService` modulo renaming (`recommendations` for `report`,
`recommendations_<id>.md` for the file scheme), so it shares the embedding. -/
abbrev ProductRecommendationService := CompetitorReportService

/-- Embedding of `ProductRecommendationService.save_recommendations`; the
method body is a verbatim copy of `save_report` modulo renaming. -/
def save_recommendations : ProductRecommendationService → String → Option String →
    Option String → Except PyError Unit × ProductRecommendationService := save_report

/-- Embedding of `ProductRecommendationService.get_recommendations`; verbatim
copy of `get_report` modulo renaming. -/
def get_recommendations : ProductRecommendationService → String →
    Option String × ProductRecommendationService := get_report

/-- Embedding of `ProductRecommendationService.delete_recommendations`;
verbatim copy of `delete_report` modulo renaming. -/
def delete_recommendations : ProductRecommendationService → String →
    Bool × ProductRecommendationService := delete_report

/-- The class `SummarizationService` (src/ally/services/summarization_service.py)
is the same verbatim copy pattern; its state shares the embedding. -/
abbrev SummarizationService := CompetitorReportService

/-- Embedding of `SummarizationService.save_summarization`; verbatim copy of
`save_report` modulo renaming. -/
def save_summarization : SummarizationService → String → Option String →
    Option String → Except PyError Unit × SummarizationService := save_report

/-- C2 (cache round-trip): for every non-empty product id P and non-empty text
T, `save_report P T` followed by `get_report P` returns exactly T — the memory
cache is written before the disk file, so this holds whether or not the disk
write succeeded. The same proof covers `save_recommendations` and
`get_recommendations`, which are definitionally the same functions. -/
theorem save_then_get_roundtrip (svc : CompetitorReportService) (P T : String)
    (diskError : Option String) (hP : P ≠ "") (hT : T ≠ "") :
    (get_report (save_report svc P (some T) diskError).2 P).1 = some T := by
  have hfalsy : pyFalsyOptStr (some T) = false := by
    simp [pyFalsyOptStr, hT]
  cases diskError with
  | none => simp [save_report, get_report, hP, hfalsy, dictGet_insert]
  | some e => simp [save_report, get_report, hP, hfalsy, dictGet_insert]

/-- Closed instance of C2 on a concrete cache state. -/
theorem save_then_get_roundtrip_witness :
    (get_report (save_report ⟨[], []⟩ "B0TEST001" (some "report body") none).2 "B0TEST001").1 =
      some "report body" :=
  save_then_get_roundtrip ⟨[], []⟩ "B0TEST001" "report body" none (by decide) (by decide)

/-- C7 (delete semantics): `delete_report` on a key with no stored entry
returns False and leaves the state untouched; on a stored key it returns True,
removes both the memory entry and the disk file, and a subsequent `get_report`
returns None. `delete_recommendations` is definitionally the same function. -/
theorem delete_report_spec (svc : CompetitorReportService) (P : String) :
    (has_report svc P = false → delete_report svc P = (false, svc)) ∧
    (has_report svc P = true →
      (delete_report svc P).1 = true ∧
      dictContains (delete_report svc P).2.reports_cache P = false ∧
      dictContains (delete_report svc P).2.disk_files P = false ∧
      (get_report (delete_report svc P).2 P).1 = none) := by
  by_cases hP : P = ""
  · constructor
    · intro _
      simp [delete_report, hP]
    · intro habs
      simp [has_report, hP] at habs
  · constructor
    · intro h
      simp only [has_report, hP, if_false, Bool.or_eq_false_iff] at h
      simp [delete_report, hP, h.1, h.2]
    · intro h
      simp only [has_report, hP, if_false] at h
      have hcache : dictContains (delete_report svc P).2.reports_cache P = false := by
        by_cases hc : dictContains svc.reports_cache P
        · simp [delete_report, hP, hc, dictContains_erase]
        · simp [delete_report, hP, hc]
      have hdisk : dictContains (delete_report svc P).2.disk_files P = false := by
        by_cases hd : dictContains svc.disk_files P
        · simp [delete_report, hP, hd, dictContains_erase]
        · simp [delete_report, hP, hd]
      refine ⟨by simp [delete_report, hP, h], hcache, hdisk, ?_⟩
      simp [get_report, hP, dictGet_eq_none_of_not_contains _ _ hcache,
        dictGet_eq_none_of_not_contains _ _ hdisk]

/-- Closed instance of C7 on a concrete cache state holding one entry. -/
theorem delete_report_spec_witness :
    (delete_report ⟨[("P1", "text")], [("P1", "text")]⟩ "P1").1 = true ∧
    (get_report (delete_report ⟨[("P1", "text")], [("P1", "text")]⟩ "P1").2 "P1").1 = none := by
  have h := (delete_report_spec ⟨[("P1", "text")], [("P1", "text")]⟩ "P1").2 (by decide)
  exact ⟨h.1, h.2.2.2⟩

/-- C10: `save_report` raises ValueError exactly when the product id or the
report text is empty, and in that case the call has modified neither the
memory cache nor any disk file. -/
theorem save_report_valueError_spec (svc : CompetitorReportService)
    (P report : String) (diskError : Option String) :
    ((∃ m, (save_report svc P (some report) diskError).1 = .error (.valueError m)) ↔
      (P = "" ∨ report = "")) ∧
    ((P = "" ∨ report = "") → (save_report svc P (some report) diskError).2 = svc) := by
  by_cases hP : P = ""
  · constructor
    · simp [save_report, hP]
    · intro _
      simp [save_report, hP]
  · by_cases hr : report = ""
    · constructor
      · simp [save_report, hP, hr, pyFalsyOptStr]
      · intro _
        simp [save_report, hP, hr, pyFalsyOptStr]
    · have hfalsy : pyFalsyOptStr (some report) = false := by
        simp [pyFalsyOptStr, hr]
      constructor
      · cases diskError with
        | none => simp [save_report, hP, hr, hfalsy]
        | some e => simp [save_report, hP, hr, hfalsy]
      · intro habs
        rcases habs with h | h
        · exact absurd h hP
        · exact absurd h hr

/-- Closed instance of C10: saving under an empty product id raises ValueError
and leaves the state unchanged. -/
theorem save_report_valueError_spec_witness :
    (save_report ⟨[], []⟩ "" (some "text") none).2 = ⟨[], []⟩ :=
  (save_report_valueError_spec ⟨[], []⟩ "" "text" none).2 (Or.inl rfl)

/-- A part of an agent event content (google.genai.types.Part): the `text`
attribute is always present on the ADK type but may be `None`. -/
structure EventPart where
  text : Option String
deriving DecidableEq, Repr

/-- Content of an agent event (google.genai.types.Content): the `parts`
attribute is always present but may be `None`; a non-`None` Content object is
truthy in Python. -/
structure EventContent where
  parts : Option (List EventPart)
deriving DecidableEq, Repr

/-- An event yielded by the ADK runner: its `content` attribute (possibly
`None`) and its Python string rendering `str(event)`. -/
structure AgentEvent where
  content : Option EventContent
  str_repr : String
deriving DecidableEq, Repr

/-- Embedding of `AgentService._extract_final_response`
(src/ally/services/agent_service.py). The `hasattr` guards are always true on
the ADK types, so the branching is on truthiness: an empty event list yields
the literal string, a last event with truthy content and truthy (non-empty)
parts yields the `text` attribute of the first part (which may be Python
`None`, hence the `Option String` result), and anything else yields
`str(final_event)`. -/
def extract_final_response (events : List AgentEvent) : Option String :=
  match events.getLast? with
  | none => some "No response generated"
  | some final_event =>
    match final_event.content with
    | some content_obj =>
      match content_obj.parts with
      | some (p :: _) => p.text
      | _ => some final_event.str_repr
    | none => some final_event.str_repr

/-- C3 (final-response extraction): on an empty event list
`_extract_final_response` returns the literal string; otherwise it returns the
text of the first part of the last event when that content has parts, and the
stringified last event when the last event has no content or no parts. -/
theorem extract_final_response_spec (events : List AgentEvent) (e : AgentEvent) :
    (extract_final_response [] = some "No response generated") ∧
    (events.getLast? = some e →
      ((∀ c p ps, e.content = some c → c.parts = some (p :: ps) →
          extract_final_response events = p.text) ∧
       (e.content = none → extract_final_response events = some e.str_repr) ∧
       (∀ c, e.content = some c → (c.parts = none ∨ c.parts = some []) →
          extract_final_response events = some e.str_repr))) := by
  refine ⟨rfl, fun hlast => ⟨?_, ?_, ?_⟩⟩
  · intro c p ps hc hp
    simp [extract_final_response, hlast, hc, hp]
  · intro hc
    simp [extract_final_response, hlast, hc]
  · intro c hc hp
    rcases hp with hp | hp <;> simp [extract_final_response, hlast, hc, hp]

/-- Closed instance of C3: a two-event list whose last event has one text part. -/
theorem extract_final_response_spec_witness :
    extract_final_response
      [⟨none, "e0"⟩, ⟨some ⟨some [⟨some "final answer"⟩]⟩, "e1"⟩] = some "final answer" :=
  ((extract_final_response_spec
      [⟨none, "e0"⟩, ⟨some ⟨some [⟨some "final answer"⟩]⟩, "e1"⟩]
      ⟨some ⟨some [⟨some "final answer"⟩]⟩, "e1"⟩).2 rfl).1
    ⟨some [⟨some "final answer"⟩]⟩ ⟨some "final answer"⟩ [] rfl rfl

/-- Environment of one `AgentService` run: the fresh session id drawn from
`uuid.uuid4()`, and the outcome of draining `runner.run_async` for a given
(user id, session id, message text) triple — either the buffered event list or
the text of the exception raised during iteration. -/
structure AgentEnv where
  session_id : String
  run_events : String → String → String → Except String (List AgentEvent)

/-- Embedding of `AgentService.run_competitor_report`: builds the fixed user
message, drains the runner event stream (exceptions re-raised as
`ValueError("Agent execution failed: ...")`), extracts the final response and
persists it through `save_report`, whose exceptions propagate. The
`timeout_seconds` parameter is accepted here exactly as in the source, whose
body never reads it. Session creation and the agent object are external
effects with no bearing on the modelled state. -/
def run_competitor_report (env : AgentEnv) (reports : CompetitorReportService)
    (product_id user_id : String) (timeout_seconds : Int) (diskError : Option String) :
    Except PyError (Option String) × CompetitorReportService :=
  let message_text := "Generate a comprehensive competitor report for product ID: " ++ product_id
  match env.run_events user_id env.session_id message_text with
  | .error e => (.error (.valueError ("Agent execution failed: " ++ e)), reports)
  | .ok events =>
    let report := extract_final_response events
    match save_report reports product_id report diskError with
    | (.error err, reports1) => (.error err, reports1)
    | (.ok _, reports1) => (.ok report, reports1)

/-- Embedding of `AgentService.run_recommendations`: loads the competitor
report through `get_report` (which may populate that cache), drains the runner
stream, and persists the extracted response through `save_recommendations`.
The `timeout_seconds` parameter is accepted and never read, as in the source. -/
def run_recommendations (env : AgentEnv) (reports : CompetitorReportService)
    (recs : ProductRecommendationService) (product_id user_id : String)
    (timeout_seconds : Int) (diskError : Option String) :
    Except PyError (Option String) × CompetitorReportService × ProductRecommendationService :=
  let loaded := get_report reports product_id
  let message_text :=
    "Generate 3 actionable product optimization recommendations for product ID: " ++ product_id
  match env.run_events user_id env.session_id message_text with
  | .error e => (.error (.valueError ("Agent execution failed: " ++ e)), loaded.2, recs)
  | .ok events =>
    let recommendations := extract_final_response events
    match save_recommendations recs product_id recommendations diskError with
    | (.error err, recs1) => (.error err, loaded.2, recs1)
    | (.ok _, recs1) => (.ok recommendations, loaded.2, recs1)

/-- Embedding of `AgentService.run_final_agent`: drains the runner stream of
the sequential final agent and persists the extracted summary through
`save_summarization`. The `timeout_seconds` parameter is accepted and never
read, as in the source; the product-store mutations performed inside the
runner by the update sub-agents are part of the external run, not of the
state modelled here. -/
def run_final_agent (env : AgentEnv) (summaries : SummarizationService)
    (product_id user_id : String) (timeout_seconds : Int) (diskError : Option String) :
    Except PyError (Option String) × SummarizationService :=
  let message_text := "Finalize product updates and create summary for product ID: " ++ product_id
  match env.run_events user_id env.session_id message_text with
  | .error e => (.error (.valueError ("Agent execution failed: " ++ e)), summaries)
  | .ok events =>
    let summary := extract_final_response events
    match save_summarization summaries product_id summary diskError with
    | (.error err, summaries1) => (.error err, summaries1)
    | (.ok _, summaries1) => (.ok summary, summaries1)

/-- C8 (timeout noninterference): under identical environments and states, two
invocations of any of the three `AgentService` operations that differ only in
`timeout_seconds` produce the same outcome and the same final state — the
parameter is silently ignored by all of them. -/
theorem timeout_seconds_noninterference (env : AgentEnv)
    (reports : CompetitorReportService) (recs : ProductRecommendationService)
    (summaries : SummarizationService) (product_id user_id : String)
    (diskError : Option String) (t1 t2 : Int) :
    run_competitor_report env reports product_id user_id t1 diskError =
      run_competitor_report env reports product_id user_id t2 diskError ∧
    run_recommendations env reports recs product_id user_id t1 diskError =
      run_recommendations env reports recs product_id user_id t2 diskError ∧
    run_final_agent env summaries product_id user_id t1 diskError =
      run_final_agent env summaries product_id user_id t2 diskError :=
  ⟨rfl, rfl, rfl⟩

/-- Python `str.strip()` with no arguments: removes leading and trailing
whitespace (modelled with `Char.isWhitespace`, which agrees with Python on
ASCII whitespace). Implemented structurally on the character list so that it
evaluates by kernel reduction. -/
def pyStrip (s : String) : String :=
  ⟨((s.data.dropWhile Char.isWhitespace).reverse.dropWhile Char.isWhitespace).reverse⟩

/-- Result convention of every LLM tool function: a JSON object with `result`
equal to `"success"` or `"failure"` and a `message` or `error` string. -/
inductive ToolResult where
  | success (message : String)
  | failure (error : String)
deriving DecidableEq, Repr

/-- The pydantic `Product` model (src/ally/product_service.py). `product_id`
and `title` are required strings; everything else is optional. The four rank
fields are floats in the source, modelled as rationals. The field `universe`
is guillemet-quoted because the plain name is a Lean keyword. -/
structure Product where
  product_id : String
  title : String
  «universe» : Option String
  image_url : Option (List String)
  bullet_points : Option (List String)
  min_rank_search : Option Rat
  avg_rank_search : Option Rat
  min_rank_category : Option Rat
  avg_rank_category : Option Rat
  retailer_category_node : Option String
  retailer_brand_name : Option String
  description_filled : Option String
  source_product_id : Option String
deriving DecidableEq, Repr

/-- State of `ProductService`: the in-memory `products` list. The companion
dict `_products_by_id` is a comprehension over that list (last occurrence of a
key wins), so it is modelled as derived data via `lastIdxOf`. -/
structure ProductService where
  products : List Product
deriving DecidableEq, Repr

/-- Index of the product that the dict `_products_by_id` associates to a key:
the dict comprehension `{p.product_id: p for p in products}` keeps the last
occurrence. The object identity of the dict value is its list position. -/
def lastIdxOf (l : List Product) (product_id : String) : Option Nat :=
  match l with
  | [] => none
  | p :: rest =>
    match lastIdxOf rest product_id with
    | some j => some (j + 1)
    | none => if p.product_id == product_id then some 0 else none

/-- Embedding of `ProductService.get_product_by_id`: the `_products_by_id`
dict lookup. -/
def get_product_by_id (s : ProductService) (product_id : String) : Option Product :=
  (lastIdxOf s.products product_id).bind (fun j => s.products.get? j)

/-- Index scanned by the replacement loop of `ProductService.update_product`
(`for i, p in enumerate(self.products): if p.product_id == ...: break`): the
first occurrence of the key. -/
def firstIdxOf (l : List Product) (product_id : String) : Option Nat :=
  match l with
  | [] => none
  | p :: rest =>
    if p.product_id == product_id then some 0
    else (firstIdxOf rest product_id).map (· + 1)

/-- The list effect of `ProductService.update_product product1`: replace the
first list entry whose id matches (the dict entry is derived data here). -/
def updateFirst (l : List Product) (product_id : String) (product1 : Product) : List Product :=
  match firstIdxOf l product_id with
  | some i => l.set i product1
  | none => l

/-- CSV round trip of an optional string field: `None` is written as an empty
cell, and pandas reads an empty cell back as NaN, which `_row_to_dict` turns
into `None`; hence empty strings do not survive the trip. Non-empty cell
contents are modelled as round-tripping exactly. -/
def csvOptStr (v : Option String) : Option String :=
  match v with
  | none => none
  | some s => if s = "" then none else some s

/-- CSV round trip of an optional list field: `save_to_csv` writes
`json.dumps(x) if x else None`, so `None` and `[]` both become an empty cell
and read back as `None`; a non-empty list round-trips through its JSON
encoding. -/
def csvOptList (v : Option (List String)) : Option (List String) :=
  match v with
  | none => none
  | some xs => if xs = [] then none else some xs

/-- Field-wise CSV normalization applied to a product by a save-then-reload:
identity except that empty optional strings and falsy list fields come back as
`None`. Rank floats round-trip exactly. -/
def csvNormalize (p : Product) : Product :=
  { p with
    «universe» := csvOptStr p.«universe»
    image_url := csvOptList p.image_url
    bullet_points := csvOptList p.bullet_points
    retailer_category_node := csvOptStr p.retailer_category_node
    retailer_brand_name := csvOptStr p.retailer_brand_name
    description_filled := csvOptStr p.description_filled
    source_product_id := csvOptStr p.source_product_id }

/-- CSV round trip of one product row: a row whose required `product_id` or
`title` cell is empty reads back as missing and makes the pydantic validation
of the reload raise. -/
def csvRoundTripProduct (p : Product) : Option Product :=
  if p.product_id = "" ∨ p.title = "" then none else some (csvNormalize p)

/-- The reload loop of `load_from_csv` / `_dataframe_to_products`: builds the
new products list row by row; any row that fails validation aborts the whole
reload with an exception. -/
def reloadProducts (l : List Product) : Option (List Product) :=
  match l with
  | [] => some []
  | p :: rest =>
    match csvRoundTripProduct p with
    | none => none
    | some q => (reloadProducts rest).map (q :: ·)

/-- Embedding of `ProductService.save_and_reload`: `save_to_csv` (whose own
failure, injected as the exception text `ioError`, is wrapped in
`IOError("Failed to save products to CSV: ...")`) followed by
`load_from_csv`; a reload validation failure also raises (the pydantic message
is abstracted as `ValidationError`). On either failure the in-memory products
list is left as it was before the call. -/
def save_and_reload (ioError : Option String) (s : ProductService) :
    Except String ProductService :=
  match ioError with
  | some e => .error ("Failed to save products to CSV: " ++ e)
  | none =>
    match reloadProducts s.products with
    | some prods => .ok ⟨prods⟩
    | none => .error "ValidationError"

/-- Embedding of the tool `update_product_title`
(src/ally/ai/agents/finalize/subagents/update/tools.py). The product returned
by `get_product_by_id` is an alias of the list entry, so the assignment
`product.title = new_title.strip()` is an in-place update at the dict index
`j`; `update_product` then re-writes the first index with a matching id, and
`save_and_reload` round-trips the whole store through the CSV. Exceptions
from the save/reload are caught and wrapped in a failure JSON; the second
inner `none` branch is unreachable because `lastIdxOf` indices are in range. -/
def update_product_title (s : ProductService) (product_id new_title : String)
    (ioError : Option String) : ToolResult × ProductService :=
  match lastIdxOf s.products product_id with
  | none => (.failure ("Product " ++ product_id ++ " not found"), s)
  | some j =>
    match s.products.get? j with
    | none => (.failure ("Product " ++ product_id ++ " not found"), s)
    | some product =>
      if pyStrip new_title = "" then
        (.failure "New title cannot be empty", s)
      else
        let product1 := { product with title := pyStrip new_title }
        let l1 := s.products.set j product1
        let l2 := updateFirst l1 product_id product1
        match save_and_reload ioError ⟨l2⟩ with
        | .ok s2 => (.success ("Successfully updated product title to: " ++ new_title), s2)
        | .error e => (.failure ("Failed to save changes to disk: " ++ e), ⟨l2⟩)

/-- Embedding of the tool `remove_bullet_point` (same module). Guards in
source order: blank input, then falsy `bullet_points` (`None` or `[]`, both
with `getD [] = []`), then exact membership of the stripped input;
`list.remove` deletes the first occurrence, in place through the alias, and
the store is saved and reloaded as for the title tool. -/
def remove_bullet_point (s : ProductService) (product_id bullet_point : String)
    (ioError : Option String) : ToolResult × ProductService :=
  match lastIdxOf s.products product_id with
  | none => (.failure ("Product " ++ product_id ++ " not found"), s)
  | some j =>
    match s.products.get? j with
    | none => (.failure ("Product " ++ product_id ++ " not found"), s)
    | some product =>
      if pyStrip bullet_point = "" then
        (.failure "Bullet point cannot be empty", s)
      else if product.bullet_points.getD [] = [] then
        (.failure "Product has no bullet points to remove", s)
      else
        let bullet_to_remove := pyStrip bullet_point
        if (product.bullet_points.getD []).contains bullet_to_remove then
          let product1 := { product with
            bullet_points := some ((product.bullet_points.getD []).erase bullet_to_remove) }
          let l1 := s.products.set j product1
          let l2 := updateFirst l1 product_id product1
          match save_and_reload ioError ⟨l2⟩ with
          | .ok s2 => (.success ("Successfully removed bullet point: " ++ bullet_point), s2)
          | .error e => (.failure ("Failed to save changes to disk: " ++ e), ⟨l2⟩)
        else
          (.failure ("Cannot remove bullet point. Bullet point not found. Provided: " ++
            bullet_to_remove), s)

theorem list_get?_lt {α : Type} : ∀ (l : List α) (n : Nat) (a : α),
    l.get? n = some a → n < l.length
  | [], _, _, h => by simp [List.get?] at h
  | _ :: _, 0, _, _ => by simp
  | _ :: xs, n + 1, a, h => by
    simp only [List.get?] at h
    exact Nat.succ_lt_succ (list_get?_lt xs n a h)

theorem list_get?_set_self {α : Type} : ∀ (l : List α) (n : Nat) (a : α),
    n < l.length → (l.set n a).get? n = some a
  | [], _, _, h => absurd h (by simp)
  | _ :: _, 0, _, _ => rfl
  | _ :: xs, n + 1, a, h => by
    simp only [List.set, List.get?]
    exact list_get?_set_self xs n a (Nat.lt_of_succ_lt_succ h)

theorem list_get?_set_ne {α : Type} : ∀ (l : List α) (n m : Nat) (a : α),
    n ≠ m → (l.set n a).get? m = l.get? m
  | [], _, _, _, _ => rfl
  | _ :: _, 0, 0, _, h => absurd rfl h
  | _ :: _, 0, _ + 1, _, _ => rfl
  | _ :: _, _ + 1, 0, _, _ => rfl
  | _ :: xs, n + 1, m + 1, a, h => by
    simp only [List.set, List.get?]
    exact list_get?_set_ne xs n m a (fun hc => h (by rw [hc]))

theorem list_set_same {α : Type} : ∀ (l : List α) (n : Nat) (a : α),
    l.get? n = some a → l.set n a = l
  | [], _, _, _ => rfl
  | x :: xs, 0, a, h => by
    simp only [List.get?, Option.some.injEq] at h
    simp [List.set, h]
  | x :: xs, n + 1, a, h => by
    simp only [List.get?] at h
    simp only [List.set]
    rw [list_set_same xs n a h]

theorem lastIdxOf_get? (l : List Product) (pid : String) :
    ∀ j, lastIdxOf l pid = some j → ∃ p, l.get? j = some p ∧ p.product_id = pid := by
  induction l with
  | nil => intro j h; simp [lastIdxOf] at h
  | cons q rest ih =>
    intro j h
    rw [lastIdxOf] at h
    cases hr : lastIdxOf rest pid with
    | some j' =>
      rw [hr] at h
      obtain ⟨p, hp, hid⟩ := ih j' hr
      cases h
      exact ⟨p, hp, hid⟩
    | none =>
      rw [hr] at h
      by_cases hq : (q.product_id == pid) = true
      · rw [if_pos hq] at h
        cases h
        exact ⟨q, rfl, by simpa using hq⟩
      · rw [if_neg hq] at h
        cases h

theorem lastIdxOf_none (l : List Product) (pid : String) (h : lastIdxOf l pid = none) :
    ∀ k q, l.get? k = some q → q.product_id ≠ pid := by
  induction l with
  | nil => intro k q hk; simp [List.get?] at hk
  | cons x rest ih =>
    rw [lastIdxOf] at h
    cases hr : lastIdxOf rest pid with
    | some j' => rw [hr] at h; cases h
    | none =>
      rw [hr] at h
      by_cases hx : (x.product_id == pid) = true
      · rw [if_pos hx] at h; cases h
      · intro k q hk
        cases k with
        | zero =>
          simp only [List.get?, Option.some.injEq] at hk
          subst hk
          simpa using hx
        | succ k' =>
          simp only [List.get?] at hk
          exact ih hr k' q hk

theorem lastIdxOf_congr (l₁ : List Product) (pid : String) :
    ∀ l₂, l₁.map Product.product_id = l₂.map Product.product_id →
      lastIdxOf l₁ pid = lastIdxOf l₂ pid := by
  induction l₁ with
  | nil =>
    intro l₂ h
    cases l₂ with
    | nil => rfl
    | cons _ _ => simp at h
  | cons q rest ih =>
    intro l₂ h
    cases l₂ with
    | nil => simp at h
    | cons q₂ rest₂ =>
      simp only [List.map_cons, List.cons.injEq] at h
      rw [lastIdxOf, lastIdxOf, ih rest₂ h.2, h.1]

theorem firstIdxOf_get? (l : List Product) (pid : String) :
    ∀ i, firstIdxOf l pid = some i → ∃ p, l.get? i = some p ∧ p.product_id = pid := by
  induction l with
  | nil => intro i h; simp [firstIdxOf] at h
  | cons q rest ih =>
    intro i h
    rw [firstIdxOf] at h
    by_cases hq : (q.product_id == pid) = true
    · rw [if_pos hq] at h
      cases h
      exact ⟨q, rfl, by simpa using hq⟩
    · rw [if_neg hq] at h
      cases hr : firstIdxOf rest pid with
      | none => rw [hr] at h; cases h
      | some i' =>
        rw [hr] at h
        simp only [Option.map_some', Option.some.injEq] at h
        obtain ⟨p, hp, hid⟩ := ih i' hr
        subst h
        exact ⟨p, hp, hid⟩

theorem firstIdxOf_eq_of_nodup (l : List Product) (pid : String) :
    ∀ j p, (l.map Product.product_id).Nodup → l.get? j = some p → p.product_id = pid →
      firstIdxOf l pid = some j := by
  induction l with
  | nil => intro j p _ hj _; simp [List.get?] at hj
  | cons q rest ih =>
    intro j p hnd hj hid
    rw [List.map_cons, List.nodup_cons] at hnd
    cases j with
    | zero =>
      simp only [List.get?, Option.some.injEq] at hj
      subst hj
      rw [firstIdxOf, if_pos (by simpa using hid)]
    | succ j' =>
      simp only [List.get?] at hj
      have hmem : p.product_id ∈ rest.map Product.product_id := by
        exact List.mem_map_of_mem _ (List.get?_mem hj)
      have hq : ¬((q.product_id == pid) = true) := by
        intro hc
        have : q.product_id = pid := by simpa using hc
        rw [hid] at hmem
        rw [this] at hnd
        exact hnd.1 hmem
      rw [firstIdxOf, if_neg hq, ih j' p hnd.2 hj hid]
      rfl

theorem updateFirst_get?_self (l : List Product) (pid : String) (p1 : Product) (j : Nat)
    (h : l.get? j = some p1) : (updateFirst l pid p1).get? j = some p1 := by
  unfold updateFirst
  cases hf : firstIdxOf l pid with
  | none => exact h
  | some i =>
    by_cases hij : i = j
    · subst hij
      exact list_get?_set_self l i p1 (list_get?_lt l i p1 h)
    · rw [list_get?_set_ne l i j p1 hij]
      exact h

theorem set_map_id (l : List Product) (j : Nat) (p1 p : Product)
    (hj : l.get? j = some p) (hid : p1.product_id = p.product_id) :
    (l.set j p1).map Product.product_id = l.map Product.product_id := by
  rw [List.map_set]
  apply list_set_same
  rw [List.get?_map, hj]
  simp [hid]

theorem updateFirst_map_id (l : List Product) (pid : String) (p1 : Product)
    (hp1 : p1.product_id = pid) :
    (updateFirst l pid p1).map Product.product_id = l.map Product.product_id := by
  unfold updateFirst
  cases hf : firstIdxOf l pid with
  | none => rfl
  | some i =>
    obtain ⟨q, hq, hqid⟩ := firstIdxOf_get? l pid i hf
    exact set_map_id l i p1 q hq (by rw [hp1, hqid])

theorem csvNormalize_product_id (p : Product) : (csvNormalize p).product_id = p.product_id := rfl

theorem csvNormalize_title (p : Product) : (csvNormalize p).title = p.title := rfl

theorem reloadProducts_eq_map (l : List Product)
    (h : ∀ p ∈ l, p.product_id ≠ "" ∧ p.title ≠ "") :
    reloadProducts l = some (l.map csvNormalize) := by
  induction l with
  | nil => rfl
  | cons p rest ih =>
    have hp := h p (List.mem_cons_self p rest)
    rw [reloadProducts, csvRoundTripProduct, if_neg (by push_neg; exact hp)]
    rw [ih (fun q hq => h q (List.mem_cons_of_mem _ hq))]
    rfl

theorem map_id_csvNormalize (l : List Product) :
    (l.map csvNormalize).map Product.product_id = l.map Product.product_id := by
  rw [List.map_map]
  exact List.map_congr_left (fun a _ => rfl)

/-- Concrete store fixture: one product with id `B0TEST001`, title `Widget`,
bullet points `["a", "b"]` (the end-to-end scenario of the spec). -/
def demoProduct : Product :=
  { product_id := "B0TEST001", title := "Widget", «universe» := none, image_url := none,
    bullet_points := some ["a", "b"], min_rank_search := none, avg_rank_search := none,
    min_rank_category := none, avg_rank_category := none, retailer_category_node := none,
    retailer_brand_name := none, description_filled := none, source_product_id := none }

/-- Concrete product store holding only `demoProduct`. -/
def demoService : ProductService := ⟨[demoProduct]⟩

/-- C4 (blank-input validation): on an existing product, a new title whose
strip is empty makes `update_product_title` return the validation failure JSON
and leave the whole store — in particular the stored title — untouched; no
save is attempted (the result does not depend on the disk outcome). -/
theorem update_product_title_blank_input (s : ProductService) (pid t : String)
    (ioError : Option String) (p : Product)
    (hex : get_product_by_id s pid = some p) (ht : pyStrip t = "") :
    update_product_title s pid t ioError = (.failure "New title cannot be empty", s) := by
  unfold get_product_by_id at hex
  cases hl : lastIdxOf s.products pid with
  | none => rw [hl] at hex; simp at hex
  | some j =>
    rw [hl] at hex
    simp only [Option.some_bind] at hex
    rw [List.get?_eq_getElem?] at hex
    simp [update_product_title, hl, hex, ht]

/-- Closed instance of C4 on the concrete store. -/
theorem update_product_title_blank_input_witness :
    update_product_title demoService "B0TEST001" "   " none =
      (.failure "New title cannot be empty", demoService) :=
  update_product_title_blank_input demoService "B0TEST001" "   " none demoProduct rfl rfl

/-- C1 as stated is false on the code: when the CSV save raises, the tool does
return the failure JSON wrapping the I/O error, but the in-memory store keeps
the new title — `product.title` is assigned through the alias before
`save_and_reload` runs, and nothing rolls it back. Concretely, after a failed
save the stored title of `B0TEST001` is `Widget Pro`, not the prior `Widget`. -/
theorem update_product_title_save_failure_counterexample :
    (update_product_title demoService "B0TEST001" "Widget Pro" (some "disk full")).1 =
      .failure "Failed to save changes to disk: Failed to save products to CSV: disk full" ∧
    (get_product_by_id demoService "B0TEST001").map Product.title = some "Widget" ∧
    (get_product_by_id
        (update_product_title demoService "B0TEST001" "Widget Pro" (some "disk full")).2
        "B0TEST001").map Product.title = some "Widget Pro" := by
  decide

/-- C1 (amended): when the CSV save raises during `update_product_title` on an
existing product with a non-blank new title, the tool returns a failure JSON
wrapping the underlying I/O error, but the update HAS been applied to the
in-memory store: the stored title is the stripped new title (no rollback
occurs; only the disk copy is left behind). -/
theorem update_product_title_save_failure (s : ProductService) (pid t e : String)
    (j : Nat) (p : Product) (hj : lastIdxOf s.products pid = some j)
    (hget : s.products.get? j = some p) (ht : pyStrip t ≠ "") :
    (update_product_title s pid t (some e)).1 =
      .failure ("Failed to save changes to disk: " ++ ("Failed to save products to CSV: " ++ e)) ∧
    (get_product_by_id (update_product_title s pid t (some e)).2 pid).map Product.title =
      some (pyStrip t) := by
  have hid : p.product_id = pid := by
    obtain ⟨p', hp', hid'⟩ := lastIdxOf_get? s.products pid j hj
    rw [hget] at hp'
    cases hp'
    exact hid'
  have hresult : update_product_title s pid t (some e) =
      (.failure ("Failed to save changes to disk: " ++ ("Failed to save products to CSV: " ++ e)),
       ⟨updateFirst (s.products.set j { p with title := pyStrip t }) pid
          { p with title := pyStrip t }⟩) := by
    have hget' : s.products[j]? = some p := by
      rw [← List.get?_eq_getElem?]
      exact hget
    simp [update_product_title, hj, hget', ht, save_and_reload]
  refine ⟨by rw [hresult], ?_⟩
  rw [hresult]
  have hids1 : (s.products.set j { p with title := pyStrip t }).map Product.product_id =
      s.products.map Product.product_id :=
    set_map_id s.products j { p with title := pyStrip t } p hget rfl
  have hids2 : (updateFirst (s.products.set j { p with title := pyStrip t }) pid
      { p with title := pyStrip t }).map Product.product_id =
      s.products.map Product.product_id := by
    rw [updateFirst_map_id (s.products.set j { p with title := pyStrip t }) pid
      { p with title := pyStrip t } hid, hids1]
  have hlast : lastIdxOf (updateFirst (s.products.set j { p with title := pyStrip t }) pid
      { p with title := pyStrip t }) pid = some j := by
    rw [lastIdxOf_congr _ pid s.products hids2, hj]
  have hget2 : (updateFirst (s.products.set j { p with title := pyStrip t }) pid
      { p with title := pyStrip t }).get? j = some { p with title := pyStrip t } :=
    updateFirst_get?_self _ pid { p with title := pyStrip t } j
      (list_get?_set_self s.products j { p with title := pyStrip t }
        (list_get?_lt s.products j p hget))
  rw [List.get?_eq_getElem?] at hget2
  simp [get_product_by_id, hlast, hget2]

/-- Closed instance of the amended C1 on the concrete store. -/
theorem update_product_title_save_failure_witness :
    (get_product_by_id
        (update_product_title demoService "B0TEST001" "Widget New" (some "io")).2
        "B0TEST001").map Product.title = some "Widget New" := by
  have h := update_product_title_save_failure demoService "B0TEST001" "Widget New" "io"
    0 demoProduct rfl rfl (by decide)
  exact h.2

theorem updateFirst_mem (l : List Product) (pid : String) (p1 q : Product)
    (hq : q ∈ updateFirst l pid p1) : q ∈ l ∨ q = p1 := by
  unfold updateFirst at hq
  cases hf : firstIdxOf l pid with
  | none => rw [hf] at hq; exact Or.inl hq
  | some i => rw [hf] at hq; exact List.mem_or_eq_of_mem_set hq

/-- C6 as stated is false on the code in two ways: a whitespace-only new title
is a non-empty string but is rejected by the blank-input guard, and a title
with surrounding whitespace is stored stripped, so `get_product_by_id` does
not return the new title string itself. -/
theorem update_product_title_roundtrip_counterexample :
    ((" " : String) ≠ "" ∧
      (update_product_title demoService "B0TEST001" " " none).1 =
        .failure "New title cannot be empty") ∧
    (("Widget Pro " : String) ≠ "" ∧
      (update_product_title demoService "B0TEST001" "Widget Pro " none).1 =
        .success "Successfully updated product title to: Widget Pro " ∧
      (get_product_by_id (update_product_title demoService "B0TEST001" "Widget Pro " none).2
          "B0TEST001").map Product.title = some "Widget Pro" ∧
      ("Widget Pro" : String) ≠ "Widget Pro ") := by
  decide

/-- C6 (amended): for every existing product and every new title whose strip
is non-empty, `update_product_title` (with the save succeeding and every
stored product CSV-valid, i.e. non-empty id and title) returns success, and a
subsequent `get_product_by_id` returns a product whose title is the stripped
new title — equal to the new title whenever it carries no surrounding
whitespace. -/
theorem update_product_title_roundtrip (s : ProductService) (pid t : String)
    (j : Nat) (p : Product) (hj : lastIdxOf s.products pid = some j)
    (hget : s.products.get? j = some p) (ht : pyStrip t ≠ "")
    (hwf : ∀ q ∈ s.products, q.product_id ≠ "" ∧ q.title ≠ "") :
    (update_product_title s pid t none).1 =
      .success ("Successfully updated product title to: " ++ t) ∧
    (get_product_by_id (update_product_title s pid t none).2 pid).map Product.title =
      some (pyStrip t) := by
  have hid : p.product_id = pid := by
    obtain ⟨p', hp', hid'⟩ := lastIdxOf_get? s.products pid j hj
    rw [hget] at hp'
    cases hp'
    exact hid'
  have hpw := hwf p (List.get?_mem hget)
  have hwf2 : ∀ q ∈ updateFirst (s.products.set j { p with title := pyStrip t }) pid
      { p with title := pyStrip t }, q.product_id ≠ "" ∧ q.title ≠ "" := by
    intro q hq
    rcases updateFirst_mem _ pid _ q hq with hq1 | hq1
    · rcases List.mem_or_eq_of_mem_set hq1 with hq2 | hq2
      · exact hwf q hq2
      · subst hq2
        exact ⟨hpw.1, ht⟩
    · subst hq1
      exact ⟨hpw.1, ht⟩
  have hreload := reloadProducts_eq_map _ hwf2
  have hresult : update_product_title s pid t none =
      (.success ("Successfully updated product title to: " ++ t),
       ⟨(updateFirst (s.products.set j { p with title := pyStrip t }) pid
          { p with title := pyStrip t }).map csvNormalize⟩) := by
    have hget' : s.products[j]? = some p := by
      rw [← List.get?_eq_getElem?]
      exact hget
    simp [update_product_title, hj, hget', ht, save_and_reload, hreload]
  refine ⟨by rw [hresult], ?_⟩
  rw [hresult]
  have hids1 : (s.products.set j { p with title := pyStrip t }).map Product.product_id =
      s.products.map Product.product_id :=
    set_map_id s.products j { p with title := pyStrip t } p hget rfl
  have hids2 : ((updateFirst (s.products.set j { p with title := pyStrip t }) pid
      { p with title := pyStrip t }).map csvNormalize).map Product.product_id =
      s.products.map Product.product_id := by
    rw [map_id_csvNormalize, updateFirst_map_id (s.products.set j { p with title := pyStrip t })
      pid { p with title := pyStrip t } hid, hids1]
  have hlast : lastIdxOf ((updateFirst (s.products.set j { p with title := pyStrip t }) pid
      { p with title := pyStrip t }).map csvNormalize) pid = some j := by
    rw [lastIdxOf_congr _ pid s.products hids2, hj]
  have hget2 : (updateFirst (s.products.set j { p with title := pyStrip t }) pid
      { p with title := pyStrip t }).get? j = some { p with title := pyStrip t } :=
    updateFirst_get?_self _ pid { p with title := pyStrip t } j
      (list_get?_set_self s.products j { p with title := pyStrip t }
        (list_get?_lt s.products j p hget))
  simp only [get_product_by_id, hlast, Option.some_bind]
  rw [List.get?_map, hget2]
  rfl

/-- Closed instance of the amended C6: the end-to-end scenario of the spec,
`update_product_title(B0TEST001, "Widget Pro")` then lookup gives `Widget Pro`. -/
theorem update_product_title_roundtrip_witness :
    (update_product_title demoService "B0TEST001" "Widget Pro" none).1 =
      .success "Successfully updated product title to: Widget Pro" ∧
    (get_product_by_id (update_product_title demoService "B0TEST001" "Widget Pro" none).2
        "B0TEST001").map Product.title = some "Widget Pro" := by
  have h := update_product_title_roundtrip demoService "B0TEST001" "Widget Pro"
    0 demoProduct rfl rfl (by decide) (by decide)
  exact ⟨h.1, h.2⟩

/-- A product whose CSV row reads back exactly as it was saved: required
fields non-empty and no optional field holding an empty string or empty list. -/
def CsvStable (p : Product) : Prop :=
  p.product_id ≠ "" ∧ p.title ≠ "" ∧ csvNormalize p = p

theorem csvNormalize_retitle (p : Product) (x : String) (h : csvNormalize p = p) :
    csvNormalize { p with title := x } = { p with title := x } := by
  cases p
  simp only [csvNormalize, Product.mk.injEq] at h ⊢
  simp_all

/-- Store fixture for the frame counterexample: a single product whose bullet
list is present but empty. -/
def frameProduct : Product :=
  { demoProduct with product_id := "B0FRAME01", bullet_points := some ([] : List String) }

/-- Product store holding only `frameProduct`. -/
def frameService : ProductService := ⟨[frameProduct]⟩

/-- C9 as stated is false on the code: a successful `update_product_title`
also rewrites every product through the CSV round trip, which does not
preserve all field values. Concretely, a product stored with an empty bullet
list comes back with `bullet_points = None` after its title is updated, so a
field other than the title changed. -/
theorem update_product_title_frame_counterexample :
    (update_product_title frameService "B0FRAME01" "New Title" none).1 =
      .success "Successfully updated product title to: New Title" ∧
    (get_product_by_id frameService "B0FRAME01").map Product.bullet_points =
      some (some []) ∧
    (get_product_by_id (update_product_title frameService "B0FRAME01" "New Title" none).2
        "B0FRAME01").map Product.bullet_points = some none := by
  decide

/-- C9 (amended): on a store with distinct product ids whose products are all
CSV-stable (non-empty required fields, no empty-string or empty-list optional
field), a successful `update_product_title` with a non-blank title changes
exactly one thing: the entry at the index of the targeted product is replaced
by the same product with the stripped new title; every other field of that
product and every other product are unchanged. Without CSV-stability the
save-and-reload additionally normalizes empty optional fields to `None`. -/
theorem update_product_title_frame (s : ProductService) (pid t : String)
    (j : Nat) (p : Product) (hj : lastIdxOf s.products pid = some j)
    (hget : s.products.get? j = some p) (ht : pyStrip t ≠ "")
    (hnd : (s.products.map Product.product_id).Nodup)
    (hstab : ∀ q ∈ s.products, CsvStable q) :
    update_product_title s pid t none =
      (.success ("Successfully updated product title to: " ++ t),
       ⟨s.products.set j { p with title := pyStrip t }⟩) := by
  have hid : p.product_id = pid := by
    obtain ⟨p', hp', hid'⟩ := lastIdxOf_get? s.products pid j hj
    rw [hget] at hp'
    cases hp'
    exact hid'
  have hps := hstab p (List.get?_mem hget)
  have hstab1 : CsvStable { p with title := pyStrip t } :=
    ⟨hps.1, ht, csvNormalize_retitle p (pyStrip t) hps.2.2⟩
  have hset : (s.products.set j { p with title := pyStrip t }).get? j =
      some { p with title := pyStrip t } :=
    list_get?_set_self s.products j { p with title := pyStrip t }
      (list_get?_lt s.products j p hget)
  have hids1 : (s.products.set j { p with title := pyStrip t }).map Product.product_id =
      s.products.map Product.product_id :=
    set_map_id s.products j { p with title := pyStrip t } p hget rfl
  have hfirst : firstIdxOf (s.products.set j { p with title := pyStrip t }) pid = some j :=
    firstIdxOf_eq_of_nodup (s.products.set j { p with title := pyStrip t }) pid j
      { p with title := pyStrip t } (by rw [hids1]; exact hnd) hset hid
  have hl2 : updateFirst (s.products.set j { p with title := pyStrip t }) pid
      { p with title := pyStrip t } = s.products.set j { p with title := pyStrip t } := by
    unfold updateFirst
    rw [hfirst]
    exact List.set_set _ _ _ _
  have hstab2 : ∀ q ∈ s.products.set j { p with title := pyStrip t }, CsvStable q := by
    intro q hq
    rcases List.mem_or_eq_of_mem_set hq with hq1 | hq1
    · exact hstab q hq1
    · subst hq1
      exact hstab1
  have hreload : reloadProducts (s.products.set j { p with title := pyStrip t }) =
      some (s.products.set j { p with title := pyStrip t }) := by
    rw [reloadProducts_eq_map _ (fun q hq => ⟨(hstab2 q hq).1, (hstab2 q hq).2.1⟩)]
    rw [List.map_congr_left (fun q hq => (hstab2 q hq).2.2), List.map_id']
  have hget' : s.products[j]? = some p := by
    rw [← List.get?_eq_getElem?]
    exact hget
  simp [update_product_title, hj, hget', ht, save_and_reload, hl2, hreload]

/-- Closed instance of the amended C9 on the concrete store: only the title
cell of the single product changes. -/
theorem update_product_title_frame_witness :
    update_product_title demoService "B0TEST001" "Widget Max" none =
      (.success "Successfully updated product title to: Widget Max",
       ⟨[{ demoProduct with title := "Widget Max" }]⟩) := by
  have h := update_product_title_frame demoService "B0TEST001" "Widget Max"
    0 demoProduct rfl rfl (by decide) (by decide) (by unfold CsvStable; decide)
  exact h

/-- Store fixture for the removal counterexample: one product whose single
bullet point is `a`. -/
def bulletServiceA : ProductService :=
  ⟨[{ demoProduct with product_id := "B0BULLETA", bullet_points := some ["a"] }]⟩

/-- Store fixture for the removal counterexample: one product whose single
bullet point carries a leading space. -/
def bulletServiceB : ProductService :=
  ⟨[{ demoProduct with product_id := "B0BULLETB", bullet_points := some [" b"] }]⟩

/-- C5 as stated is false on the code in both directions, because the tool
strips the given string before matching: the string `" a"` matches no stored
bullet of `["a"]` exactly, yet the call succeeds and removes `a`; and the
string `" b"` is exactly a stored bullet of `[" b"]`, yet the call fails
because its strip `b` is not stored. -/
theorem remove_bullet_point_counterexample :
    ((" a" : String) ∉ (["a"] : List String) ∧
      (remove_bullet_point bulletServiceA "B0BULLETA" " a" none).1 =
        .success "Successfully removed bullet point:  a") ∧
    ((" b" : String) ∈ ([" b"] : List String) ∧
      (remove_bullet_point bulletServiceB "B0BULLETB" " b" none).1 =
        .failure "Cannot remove bullet point. Bullet point not found. Provided: b") := by
  decide

/-- C5 (amended): `remove_bullet_point` matches the STRIPPED input against the
stored bullets. On an existing product, if the stripped input matches no
stored bullet the call fails (with a blank-input, no-bullets or not-found
error) and the store is unchanged; if the stripped input is non-blank and
matches a stored bullet (and the save succeeds on a CSV-valid store), the
call succeeds, the stored bullet list loses exactly the first occurrence of
the stripped input — one fewer element — and the remaining bullets keep
their original relative order (a sublist of the original list). -/
theorem remove_bullet_point_spec (s : ProductService) (pid input : String)
    (ioError : Option String) (j : Nat) (p : Product)
    (hj : lastIdxOf s.products pid = some j) (hget : s.products.get? j = some p) :
    (pyStrip input ∉ p.bullet_points.getD [] →
      ∃ err, remove_bullet_point s pid input ioError = (.failure err, s)) ∧
    (pyStrip input ≠ "" → pyStrip input ∈ p.bullet_points.getD [] →
      (∀ q ∈ s.products, q.product_id ≠ "" ∧ q.title ≠ "") →
      (remove_bullet_point s pid input none).1 =
        .success ("Successfully removed bullet point: " ++ input) ∧
      (get_product_by_id (remove_bullet_point s pid input none).2 pid).map
          (fun q => q.bullet_points.getD []) =
        some ((p.bullet_points.getD []).erase (pyStrip input)) ∧
      ((p.bullet_points.getD []).erase (pyStrip input)).length + 1 =
        (p.bullet_points.getD []).length ∧
      ((p.bullet_points.getD []).erase (pyStrip input)).Sublist
        (p.bullet_points.getD [])) := by
  have hget' : s.products[j]? = some p := by
    rw [← List.get?_eq_getElem?]
    exact hget
  have hid : p.product_id = pid := by
    obtain ⟨p', hp', hid'⟩ := lastIdxOf_get? s.products pid j hj
    rw [hget] at hp'
    cases hp'
    exact hid'
  constructor
  · intro hnot
    by_cases hblank : pyStrip input = ""
    · exact ⟨"Bullet point cannot be empty",
        by simp [remove_bullet_point, hj, hget', hblank]⟩
    · by_cases hempty : p.bullet_points.getD [] = []
      · exact ⟨"Product has no bullet points to remove",
          by simp [remove_bullet_point, hj, hget', hblank, hempty]⟩
      · exact ⟨"Cannot remove bullet point. Bullet point not found. Provided: " ++
            pyStrip input,
          by simp [remove_bullet_point, hj, hget', hblank, hempty, hnot]⟩
  · intro hblank hmem hwf
    have hempty : p.bullet_points.getD [] ≠ [] := by
      intro hc
      rw [hc] at hmem
      simp at hmem
    have hpw := hwf p (List.get?_mem hget)
    have hwf2 : ∀ q ∈ updateFirst (s.products.set j { p with bullet_points := some ((p.bullet_points.getD []).erase (pyStrip input)) }) pid { p with bullet_points := some ((p.bullet_points.getD []).erase (pyStrip input)) }, q.product_id ≠ "" ∧ q.title ≠ "" := by
      intro q hq
      rcases updateFirst_mem _ pid _ q hq with hq1 | hq1
      · rcases List.mem_or_eq_of_mem_set hq1 with hq2 | hq2
        · exact hwf q hq2
        · subst hq2
          exact hpw
      · subst hq1
        exact hpw
    have hreload := reloadProducts_eq_map _ hwf2
    have hresult : remove_bullet_point s pid input none = (.success ("Successfully removed bullet point: " ++ input), ⟨(updateFirst (s.products.set j { p with bullet_points := some ((p.bullet_points.getD []).erase (pyStrip input)) }) pid { p with bullet_points := some ((p.bullet_points.getD []).erase (pyStrip input)) }).map csvNormalize⟩) := by
      simp [remove_bullet_point, hj, hget', hblank, hempty, hmem, save_and_reload, hreload]
    refine ⟨by rw [hresult], ?_, List.length_erase_add_one hmem, List.erase_sublist _ _⟩
    rw [hresult]
    have hids1 : (s.products.set j { p with bullet_points := some ((p.bullet_points.getD []).erase (pyStrip input)) }).map Product.product_id = s.products.map Product.product_id :=
      set_map_id s.products j { p with bullet_points := some ((p.bullet_points.getD []).erase (pyStrip input)) } p hget rfl
    have hids2 : ((updateFirst (s.products.set j { p with bullet_points := some ((p.bullet_points.getD []).erase (pyStrip input)) }) pid { p with bullet_points := some ((p.bullet_points.getD []).erase (pyStrip input)) }).map csvNormalize).map Product.product_id = s.products.map Product.product_id := by
      rw [map_id_csvNormalize, updateFirst_map_id (s.products.set j { p with bullet_points := some ((p.bullet_points.getD []).erase (pyStrip input)) }) pid { p with bullet_points := some ((p.bullet_points.getD []).erase (pyStrip input)) } hid, hids1]
    have hlast : lastIdxOf ((updateFirst (s.products.set j { p with bullet_points := some ((p.bullet_points.getD []).erase (pyStrip input)) }) pid { p with bullet_points := some ((p.bullet_points.getD []).erase (pyStrip input)) }).map csvNormalize) pid = some j := by
      rw [lastIdxOf_congr _ pid s.products hids2, hj]
    have hget2 : (updateFirst (s.products.set j { p with bullet_points := some ((p.bullet_points.getD []).erase (pyStrip input)) }) pid { p with bullet_points := some ((p.bullet_points.getD []).erase (pyStrip input)) }).get? j = some { p with bullet_points := some ((p.bullet_points.getD []).erase (pyStrip input)) } :=
      updateFirst_get?_self _ pid { p with bullet_points := some ((p.bullet_points.getD []).erase (pyStrip input)) } j (list_get?_set_self s.products j { p with bullet_points := some ((p.bullet_points.getD []).erase (pyStrip input)) } (list_get?_lt s.products j p hget))
    simp only [get_product_by_id, hlast, Option.some_bind]
    rw [List.get?_map, hget2]
    by_cases he : (p.bullet_points.getD []).erase (pyStrip input) = [] <;>
      simp [csvNormalize, csvOptList, he]

/-- Closed instance of the amended C5: removing the exact bullet `a` from
`["a", "b"]` succeeds and leaves `["b"]`. -/
theorem remove_bullet_point_spec_witness :
    (remove_bullet_point demoService "B0TEST001" "a" none).1 =
      .success "Successfully removed bullet point: a" ∧
    (get_product_by_id (remove_bullet_point demoService "B0TEST001" "a" none).2
        "B0TEST001").map (fun q => q.bullet_points.getD []) = some ["b"] := by
  have h := (remove_bullet_point_spec demoService "B0TEST001" "a" none 0 demoProduct
    rfl rfl).2 (by decide) (by decide) (by decide)
  exact ⟨h.1, h.2.1⟩
